import Mathlib

/-!
Verification of the DHCPv6 relay plugin
(`pppd/plugins/dhcpv6relay/dhcpv6relay.c`).

The development shallowly embeds the relay's per-datagram pipeline:
classification of inbound DHCPv6 messages, construction of the RELAY-FORW
header and its option TLVs in the 256-byte scratch buffer, the lazily
connected upstream socket, and the link-down teardown.  Machine bytes are
`Nat` with explicit `% 256` / `% 65536` where the C code truncates;
operating-system effects (recvfrom, socket, connect, getsockname) are
supplied as explicit environment values, and the handler returns the
datagram it hands to sendmsg, if any.
-/

namespace DHCPv6Relay

/-- Modelled from the spec: DHCPv6 message-type codes named by the header
`dhcpv6relay.h`, which is not part of the provided source; the values are
the standard DHCPv6 codes the spec enumerates. -/
def DHCPv6_MSGTYPE_SOLICIT : Nat := 1

def DHCPv6_MSGTYPE_ADVERTISE : Nat := 2

def DHCPv6_MSGTYPE_REQUEST : Nat := 3

def DHCPv6_MSGTYPE_CONFIRM : Nat := 4

def DHCPv6_MSGTYPE_RENEW : Nat := 5

def DHCPv6_MSGTYPE_REBIND : Nat := 6

def DHCPv6_MSGTYPE_REPLY : Nat := 7

def DHCPv6_MSGTYPE_RELEASE : Nat := 8

def DHCPv6_MSGTYPE_DECLINE : Nat := 9

def DHCPv6_MSGTYPE_RECONFIGURE : Nat := 10

def DHCPv6_MSGTYPE_INFORMATION_REQUEST : Nat := 11

def DHCPv6_MSGTYPE_RELAY_FORW : Nat := 12

def DHCPv6_MSGTYPE_RELAY_REPL : Nat := 13

/-- Modelled from the spec: DHCPv6 relay option codes named by
`dhcpv6relay.h` (not in the provided source); standard RFC values. -/
def DHCPv6_OPTION_RELAY_MSG : Nat := 9

def DHCPv6_OPTION_REMOTE_ID : Nat := 37

def DHCPv6_OPTION_SUBSCRIBER_ID : Nat := 38

def DHCPv6_OPTION_RELAY_PORT : Nat := 135

/-- The plugin's mutable module state: the trust flag and the three socket
descriptors (`dhcpv6relay_sock_ll`, `dhcpv6relay_sock_mc`,
`dhcpv6relay_upstream`), each using the C sentinel `-1` for "absent". -/
structure RelayState where
  trusted : Bool
  sock_ll : Int
  sock_mc : Int
  upstream : Int
deriving Repr, DecidableEq

/-- Effects performed on a file descriptor by the teardown path:
`remove_fd` unregisters it from the host event loop, `close` releases it. -/
inductive FdAction where
  | removeFd (fd : Int)
  | closeFd (fd : Int)
deriving Repr, DecidableEq

/-- `dhcpv6relay_down` (dhcpv6relay.c lines 136-148): close and unregister
the LL socket if present, then the MC socket if present.  Returns the new
state together with the list of descriptor actions performed. -/
def dhcpv6relay_down (st : RelayState) : RelayState × List FdAction :=
  let s1 : RelayState × List FdAction :=
    if 0 ≤ st.sock_ll then
      ({ st with sock_ll := -1 },
       [FdAction.removeFd st.sock_ll, FdAction.closeFd st.sock_ll])
    else (st, [])
  if 0 ≤ s1.1.sock_mc then
    ({ s1.1 with sock_mc := -1 },
     s1.2 ++ [FdAction.removeFd s1.1.sock_mc, FdAction.closeFd s1.1.sock_mc])
  else (s1.1, s1.2)

/-- Outcomes of the system calls made by `dhcpv6relay_init_upstream`:
`socketResult = none` models `socket()` returning `-1`, otherwise the new
descriptor; `connectOk` models the result of `connect()`. -/
structure UpstreamEnv where
  socketResult : Option Nat
  connectOk : Bool
deriving Repr, DecidableEq

/-- `dhcpv6relay_init_upstream` (lines 150-169): create the upstream
socket; on `socket()` failure the failed return value (-1) is stored; on
`connect()` failure the socket is closed and the descriptor reset to -1.
Returns the new state and the C function's int result as a Bool. -/
def dhcpv6relay_init_upstream (st : RelayState) (env : UpstreamEnv) :
    RelayState × Bool :=
  match env.socketResult with
  | none => ({ st with upstream := -1 }, false)
  | some fd =>
    if env.connectOk then ({ st with upstream := (fd : Int) }, true)
    else ({ st with upstream := -1 }, false)

/-- Big-endian byte pair of a value truncated to `uint16_t`, as written by
the `push_uint16` macro (`t >> 8` then `t & 0xFF`). -/
def uint16be (t : Nat) : List Nat :=
  [t % 65536 / 256, t % 256]

/-- The `push_uint16` macro (line 253): bounds-check 2 bytes against the
256-byte `fwd_head`, then append the big-endian pair.  `none` models the
early `return` taken by `push_checkbytes` on overflow. -/
def push_uint16 (head : List Nat) (val : Nat) : Option (List Nat) :=
  if 2 + head.length ≤ 256 then some (head ++ uint16be val) else none

/-- The `push_bytes` macro (line 254): bounds-check `bs.length` bytes, then
append them. -/
def push_bytes (head : List Nat) (bs : List Nat) : Option (List Nat) :=
  if bs.length + head.length ≤ 256 then some (head ++ bs) else none

/-- One optional identifier option as emitted by the two
`if (remote_id) { ... }` / `if (subscriber_id) { ... }` blocks
(lines 275-288): when the identifier is available push its code, its
`strlen`, and its bytes; otherwise push nothing. -/
def pushOpt (head : List Nat) (code : Nat) (v : Option (List Nat)) :
    Option (List Nat) :=
  match v with
  | none => some head
  | some s =>
    (push_uint16 head code).bind fun h1 =>
    (push_uint16 h1 s.length).bind fun h2 =>
    push_bytes h2 s

/-- The option-pushing sequence of `dhcpv6relay_client_event`
(lines 270-292), starting from the 34-byte header already in `fwd_head`:
RELAY_PORT (length 2, value = local upstream port), then the optional
REMOTE_ID and SUBSCRIBER_ID options, then the RELAY_MSG code and declared
length (`v[1].iov_len`), whose value is carried by the second iovec. -/
def buildOptions (head : List Nat) (port : Nat) (rid sid : Option (List Nat))
    (payloadLen : Nat) : Option (List Nat) :=
  (push_uint16 head DHCPv6_OPTION_RELAY_PORT).bind fun h1 =>
  (push_uint16 h1 2).bind fun h2 =>
  (push_uint16 h2 port).bind fun h3 =>
  (pushOpt h3 DHCPv6_OPTION_REMOTE_ID rid).bind fun h4 =>
  (pushOpt h4 DHCPv6_OPTION_SUBSCRIBER_ID sid).bind fun h5 =>
  (push_uint16 h5 DHCPv6_OPTION_RELAY_MSG).bind fun h6 =>
  push_uint16 h6 payloadLen

/-- The 34-byte outer RELAY-FORW header written at lines 239-243:
msg-type, hop-count (`buffer[1] + 1` truncated to a byte when the inbound
message is itself RELAY_FORW, else 0), 16 zero bytes of link-address, and
the 16-byte peer address copied from the datagram's source. -/
def relayHeader (b0 b1 : Nat) (peer : Fin 16 → Nat) : List Nat :=
  DHCPv6_MSGTYPE_RELAY_FORW ::
  (if b0 = DHCPv6_MSGTYPE_RELAY_FORW then (b1 + 1) % 256 else 0) ::
  (List.replicate 16 0 ++ List.ofFn peer)

/-- Byte `i` of the 1024-byte stack buffer after `recvfrom` wrote the
first `min D.length 1024` bytes of datagram `D` into it: received bytes
where the datagram covers the index, the stale prior stack contents
elsewhere.  (`recvfrom` on a UDP socket silently truncates a datagram
longer than the buffer.) -/
def recvByte (D : List Nat) (stale : Nat → Nat) (i : Nat) : Nat :=
  if i < min D.length 1024 then D.getD i 0 else stale i

/-- Address family reported by `getsockname` for the upstream socket, as
discriminated by the `switch (sa.sin6_family)` at lines 258-268. -/
inductive AddrFamily where
  | af_inet
  | af_inet6
  | af_other
deriving Repr, DecidableEq

/-- Classification result for an inbound message. -/
inductive ClassifyResult where
  | forward
  | drop
deriving Repr, DecidableEq

/-- The classification of lines 221-233: drop REPLY and RELAY_REPL
always; drop RELAY_FORW when the interface is untrusted; forward
everything else. -/
def classify (b0 : Nat) (trusted : Bool) : ClassifyResult :=
  if b0 = DHCPv6_MSGTYPE_REPLY ∨ b0 = DHCPv6_MSGTYPE_RELAY_REPL then
    ClassifyResult.drop
  else if trusted = false ∧ b0 = DHCPv6_MSGTYPE_RELAY_FORW then
    ClassifyResult.drop
  else ClassifyResult.forward

/-- Environment of one invocation of the per-datagram handler: the result
of `recvfrom` (`none` = negative return; otherwise the datagram on the
wire, its 16-byte IPv6 source address and source port), the stale stack
contents of `buffer`, the system-call outcomes for the lazy upstream
connection and `getsockname` (family and local port, host order), and the
optional peer identifiers returned by `ppp_get_remote_number` and
`ppp_peer_authname`. -/
structure EventEnv where
  datagram : Option (List Nat)
  stale : Nat → Nat
  peerAddr : Fin 16 → Nat
  clientPort : Nat
  upstreamEnv : UpstreamEnv
  sockname : Option (AddrFamily × Nat)
  remote_id : Option (List Nat)
  subscriber_id : Option (List Nat)

/-- `dhcpv6relay_client_event` (lines 171-302): read one datagram, reject
reads of a full buffer, classify by the first byte, lazily connect the
upstream socket, build the RELAY-FORW header and options, and hand the
two-segment packet to `sendmsg` on the upstream descriptor.  The result is
the new module state and, when `sendmsg` is reached, the descriptor
written to together with the header segment and the payload segment
(`buffer`'s first `r` bytes); `none` means nothing was transmitted. -/
def dhcpv6relay_client_event (st : RelayState) (env : EventEnv) :
    RelayState × Option (Int × List Nat × List Nat) :=
  match env.datagram with
  | none => (st, none)
  | some D =>
    if 1024 ≤ min D.length 1024 then (st, none)
    else
      match classify (recvByte D env.stale 0) st.trusted with
      | ClassifyResult.drop => (st, none)
      | ClassifyResult.forward =>
        match
          (if st.upstream < 0 then dhcpv6relay_init_upstream st env.upstreamEnv
           else (st, true)) with
        | (st1, false) => (st1, none)
        | (st1, true) =>
          match env.sockname with
          | none => (st1, none)
          | some (fam, lport) =>
            if fam = AddrFamily.af_other then (st1, none)
            else
              match
                buildOptions
                  (relayHeader (recvByte D env.stale 0) (recvByte D env.stale 1)
                    env.peerAddr)
                  lport env.remote_id env.subscriber_id
                  (min D.length 1024) with
              | none => (st1, none)
              | some head =>
                (st1, some (st1.upstream, head, D.take (min D.length 1024)))

/-- Environment for `dhcpv6relay_up`: configuration presence and the
outcome of each system call the Up transition makes, in program order. -/
structure UpEnv where
  serverConfigured : Bool
  llOk : Bool
  serventOk : Bool
  sockLLResult : Option Nat
  bindLLOk : Bool
  ptonOk : Bool
  joinOk : Bool
  sockMCResult : Option Nat
  bindMCOk : Bool
deriving Repr, DecidableEq

/-- `dhcpv6relay_up` (lines 351-419): no-op without a configured server,
link-local address or service entry; otherwise create and bind the LL
socket, join the multicast group, create and bind the MC socket; every
failure after the first socket assignment tears down via
`dhcpv6relay_down`.  (The final `add_fd_callback` registrations have no
effect on the state modelled here.) -/
def dhcpv6relay_up (st : RelayState) (env : UpEnv) : RelayState :=
  if env.serverConfigured = false then st
  else if env.llOk = false then st
  else if env.serventOk = false then st
  else
    match env.sockLLResult with
    | none => (dhcpv6relay_down { st with sock_ll := -1 }).1
    | some fdll =>
      if env.bindLLOk = false then
        (dhcpv6relay_down { st with sock_ll := (fdll : Int) }).1
      else if env.ptonOk = false then
        (dhcpv6relay_down { st with sock_ll := (fdll : Int) }).1
      else if env.joinOk = false then
        (dhcpv6relay_down { st with sock_ll := (fdll : Int) }).1
      else
        match env.sockMCResult with
        | none =>
          (dhcpv6relay_down { st with sock_ll := (fdll : Int), sock_mc := -1 }).1
        | some fdmc =>
          if env.bindMCOk = false then
            (dhcpv6relay_down
              { st with sock_ll := (fdll : Int), sock_mc := (fdmc : Int) }).1
          else { st with sock_ll := (fdll : Int), sock_mc := (fdmc : Int) }

/-- Encoded size contributed by an optional identifier option:
4 TLV-header bytes plus the value when present, nothing when absent. -/
def optSize (v : Option (List Nat)) : Nat :=
  match v with
  | some s => 4 + s.length
  | none => 0

/-- Total encoded size of the options region: 6 bytes of RELAY_PORT TLV,
the two optional identifier options, and the 4-byte RELAY_MSG TLV header
(its value travels in the second iovec). -/
def optionsEncodedSize (rid sid : Option (List Nat)) : Nat :=
  6 + optSize rid + optSize sid + 4

/-- Bytes of one optional identifier TLV, for stating the expected
options region. -/
def optTail (code : Nat) (v : Option (List Nat)) : List Nat :=
  match v with
  | some s => uint16be code ++ uint16be s.length ++ s
  | none => []

/-- The expected options region: RELAY_PORT TLV, optional REMOTE_ID TLV,
optional SUBSCRIBER_ID TLV, then the RELAY_MSG code and declared length. -/
def expectedOptions (port : Nat) (rid sid : Option (List Nat))
    (payloadLen : Nat) : List Nat :=
  uint16be DHCPv6_OPTION_RELAY_PORT ++ uint16be 2 ++ uint16be port ++
  optTail DHCPv6_OPTION_REMOTE_ID rid ++
  optTail DHCPv6_OPTION_SUBSCRIBER_ID sid ++
  uint16be DHCPv6_OPTION_RELAY_MSG ++ uint16be payloadLen

@[simp]
lemma length_uint16be (t : Nat) : (uint16be t).length = 2 := rfl

@[simp]
lemma length_relayHeader (b0 b1 : Nat) (peer : Fin 16 → Nat) :
    (relayHeader b0 b1 peer).length = 34 := by
  simp [relayHeader]

lemma ite_some_bind (c : Prop) [Decidable c] (x : List Nat)
    (f : List Nat → Option (List Nat)) :
    (if c then some x else none).bind f = if c then f x else none := by
  split <;> rfl

/-- A bounds-checked append step of `n` bytes `b` into the scratch buffer:
starting from contents within capacity it either appends exactly `b` (when
`n` more bytes fit in the 256) or fails without a result. -/
def StepLike (n : Nat) (b : List Nat) (g : List Nat → Option (List Nat)) :
    Prop :=
  b.length = n ∧
  ∀ h : List Nat, h.length ≤ 256 →
    g h = if h.length + n ≤ 256 then some (h ++ b) else none

lemma stepLike_comp {m : Nat} {b : List Nat} {g : List Nat → Option (List Nat)}
    {n : Nat} {c : List Nat} {g2 : List Nat → Option (List Nat)}
    (h1 : StepLike m b g) (h2 : StepLike n c g2) :
    StepLike (m + n) (b ++ c) (fun h => (g h).bind g2) := by
  obtain ⟨hb, hg⟩ := h1
  obtain ⟨hc, hg2⟩ := h2
  refine ⟨by simp [hb, hc], fun h hle => ?_⟩
  show (g h).bind g2 =
    if h.length + (m + n) ≤ 256 then some (h ++ (b ++ c)) else none
  rw [hg h hle]
  by_cases hfit : h.length + m ≤ 256
  · rw [if_pos hfit, Option.some_bind,
      hg2 (h ++ b) (by simp [List.length_append, hb]; omega)]
    simp only [List.length_append, hb, List.append_assoc]
    split_ifs <;> first | rfl | omega
  · rw [if_neg hfit, Option.none_bind, if_neg (by omega)]

lemma stepLike_push_uint16 (v : Nat) :
    StepLike 2 (uint16be v) (fun h => push_uint16 h v) := by
  refine ⟨rfl, fun h hle => ?_⟩
  simp only [push_uint16]
  split_ifs <;> first | rfl | omega

lemma stepLike_pushOpt (code : Nat) (v : Option (List Nat)) :
    StepLike (optSize v) (optTail code v) (fun h => pushOpt h code v) := by
  cases v with
  | none =>
    refine ⟨rfl, fun h hle => ?_⟩
    rw [if_pos (by simpa using hle)]
    simp [pushOpt, optTail]
  | some s =>
    refine ⟨by simp [optTail, optSize]; omega, fun h hle => ?_⟩
    simp only [pushOpt, Option.bind_assoc, push_uint16, push_bytes,
      ite_some_bind, Option.some_bind, Option.none_bind,
      List.length_append, length_uint16be, List.append_assoc, optSize,
      optTail]
    split_ifs <;> first | rfl | omega

lemma stepLike_buildOptions (port : Nat) (rid sid : Option (List Nat))
    (payloadLen : Nat) :
    StepLike (2 + (2 + (2 + (optSize rid + (optSize sid + (2 + 2))))))
      (uint16be DHCPv6_OPTION_RELAY_PORT ++ (uint16be 2 ++ (uint16be port ++
        (optTail DHCPv6_OPTION_REMOTE_ID rid ++
          (optTail DHCPv6_OPTION_SUBSCRIBER_ID sid ++
            (uint16be DHCPv6_OPTION_RELAY_MSG ++ uint16be payloadLen))))))
      (fun h => buildOptions h port rid sid payloadLen) :=
  stepLike_comp (stepLike_push_uint16 DHCPv6_OPTION_RELAY_PORT)
    (stepLike_comp (stepLike_push_uint16 2)
      (stepLike_comp (stepLike_push_uint16 port)
        (stepLike_comp (stepLike_pushOpt DHCPv6_OPTION_REMOTE_ID rid)
          (stepLike_comp (stepLike_pushOpt DHCPv6_OPTION_SUBSCRIBER_ID sid)
            (stepLike_comp (stepLike_push_uint16 DHCPv6_OPTION_RELAY_MSG)
              (stepLike_push_uint16 payloadLen))))))

/-- The option-building sequence succeeds exactly when the header together
with the whole encoded options region fits in the 256-byte scratch buffer,
and then appends exactly the expected option bytes. -/
lemma buildOptions_eq (head : List Nat) (port : Nat)
    (rid sid : Option (List Nat)) (payloadLen : Nat)
    (hle : head.length ≤ 256) :
    buildOptions head port rid sid payloadLen =
      if head.length + optionsEncodedSize rid sid ≤ 256 then
        some (head ++ expectedOptions port rid sid payloadLen)
      else none := by
  have hsz : 2 + (2 + (2 + (optSize rid + (optSize sid + (2 + 2))))) =
      optionsEncodedSize rid sid := by
    simp only [optionsEncodedSize]; omega
  have hbytes : uint16be DHCPv6_OPTION_RELAY_PORT ++ (uint16be 2 ++
      (uint16be port ++ (optTail DHCPv6_OPTION_REMOTE_ID rid ++
        (optTail DHCPv6_OPTION_SUBSCRIBER_ID sid ++
          (uint16be DHCPv6_OPTION_RELAY_MSG ++ uint16be payloadLen))))) =
      expectedOptions port rid sid payloadLen := by
    simp [expectedOptions, List.append_assoc]
  have H := (stepLike_buildOptions port rid sid payloadLen).2 head hle
  rw [hsz, hbytes] at H
  exact H

/-- Characterization of a transmitted packet: whenever the per-datagram
handler reaches `sendmsg`, the datagram was received whole and under the
size limit, `getsockname` succeeded with an IP family, the header segment
is the 34-byte RELAY-FORW header followed by exactly the expected options
(which fit the scratch buffer), and the payload segment is the original
datagram. -/
lemma clientEvent_sent (st : RelayState) (env : EventEnv) (fd : Int)
    (head payload : List Nat)
    (h : (dhcpv6relay_client_event st env).2 = some (fd, head, payload)) :
    ∃ D fam p, env.datagram = some D ∧ D.length < 1024 ∧
      env.sockname = some (fam, p) ∧ fam ≠ AddrFamily.af_other ∧
      head = relayHeader (recvByte D env.stale 0) (recvByte D env.stale 1)
          env.peerAddr ++
        expectedOptions p env.remote_id env.subscriber_id D.length ∧
      payload = D ∧
      34 + optionsEncodedSize env.remote_id env.subscriber_id ≤ 256 := by
  unfold dhcpv6relay_client_event at h
  rcases hD : env.datagram with _ | D
  · rw [hD] at h
    exact absurd h (by simp)
  · rw [hD] at h
    simp only [] at h
    by_cases hlen : 1024 ≤ min D.length 1024
    · rw [if_pos hlen] at h
      exact absurd h (by simp)
    · rw [if_neg hlen] at h
      have hlt : D.length < 1024 := by omega
      rcases hcl : classify (recvByte D env.stale 0) st.trusted with _ | _
      · rw [hcl] at h
        simp only [] at h
        rcases hE : (if st.upstream < 0 then
            dhcpv6relay_init_upstream st env.upstreamEnv
          else (st, true)) with ⟨st1, ok⟩
        rw [hE] at h
        cases ok with
        | false => exact absurd h (by simp)
        | true =>
          simp only [] at h
          rcases hsn : env.sockname with _ | ⟨fam, p⟩
          · rw [hsn] at h
            exact absurd h (by simp)
          · rw [hsn] at h
            simp only [] at h
            by_cases hfam : fam = AddrFamily.af_other
            · rw [if_pos hfam] at h
              exact absurd h (by simp)
            · rw [if_neg hfam] at h
              rw [buildOptions_eq _ _ _ _ _ (by simp)] at h
              simp only [length_relayHeader] at h
              by_cases hfit :
                  34 + optionsEncodedSize env.remote_id env.subscriber_id ≤ 256
              · rw [if_pos hfit] at h
                have hmin : min D.length 1024 = D.length := by omega
                rw [hmin] at h
                simp only [List.take_length, Prod.mk.injEq, Option.some.injEq]
                  at h
                exact ⟨D, fam, p, rfl, hlt, rfl, hfam,
                  h.2.1.symm, h.2.2.symm, hfit⟩
              · rw [if_neg hfit] at h
                exact absurd h (by simp)
      · rw [hcl] at h
        exact absurd h (by simp)

/-- A state with the link up, a connected upstream socket (descriptor 3)
and a trusted peer, for concrete evaluations. -/
def goodState : RelayState :=
  { trusted := true, sock_ll := 5, sock_mc := 6, upstream := 3 }

/-- A fully working environment delivering a 1-byte SOLICIT from client
source port 546, with the upstream socket locally bound to port 1000 and
no peer identifiers. -/
def baseEnv : EventEnv :=
  { datagram := some [1]
  , stale := fun _ => 0
  , peerAddr := fun _ => 0
  , clientPort := 546
  , upstreamEnv := { socketResult := some 3, connectOk := true }
  , sockname := some (AddrFamily.af_inet6, 1000)
  , remote_id := none
  , subscriber_id := none }

/-- An environment delivering a 1-byte REPLY message. -/
def envReply : EventEnv := { baseEnv with datagram := some [7] }

/-- C1: the classifier drops REPLY and RELAY_REPL regardless of the trust
state, drops RELAY_FORW exactly when the link is untrusted and forwards it
when trusted, forwards every other message type (unknown types included)
on both trust states, and a message the classifier drops produces no
upstream transmission. -/
theorem C1_classifier_trust_policy :
    (∀ t : Bool, classify DHCPv6_MSGTYPE_REPLY t = ClassifyResult.drop ∧
      classify DHCPv6_MSGTYPE_RELAY_REPL t = ClassifyResult.drop) ∧
    classify DHCPv6_MSGTYPE_RELAY_FORW false = ClassifyResult.drop ∧
    classify DHCPv6_MSGTYPE_RELAY_FORW true = ClassifyResult.forward ∧
    (∀ (b : Nat) (t : Bool), b ≠ DHCPv6_MSGTYPE_REPLY →
      b ≠ DHCPv6_MSGTYPE_RELAY_REPL → b ≠ DHCPv6_MSGTYPE_RELAY_FORW →
      classify b t = ClassifyResult.forward) ∧
    (∀ (st : RelayState) (env : EventEnv) (D : List Nat),
      env.datagram = some D →
      classify (recvByte D env.stale 0) st.trusted = ClassifyResult.drop →
      (dhcpv6relay_client_event st env).2 = none) := by
  refine ⟨fun t => ⟨by cases t <;> decide, by cases t <;> decide⟩,
    by decide, by decide, ?_, ?_⟩
  · intro b t hb1 hb2 hb3
    simp only [classify]
    rw [if_neg (by tauto), if_neg (by tauto)]
  · intro st env D hD hdrop
    unfold dhcpv6relay_client_event
    rw [hD]
    simp only []
    by_cases hlen : 1024 ≤ min D.length 1024
    · rw [if_pos hlen]
    · rw [if_neg hlen, hdrop]

theorem C1_witness :
    classify (recvByte [7] envReply.stale 0) goodState.trusted =
      ClassifyResult.drop ∧
    (dhcpv6relay_client_event goodState envReply).2 = none :=
  ⟨by decide, C1_classifier_trust_policy.2.2.2.2 goodState envReply [7] rfl
    (by decide)⟩

/-- C2: whenever an inbound datagram D is forwarded, the options region
of the transmitted header (everything after the 34-byte outer header) is
exactly: the RELAY_PORT option first, a REMOTE_ID option exactly when a
remote identifier is available, a SUBSCRIBER_ID option exactly when a
subscriber identifier is available, and last the RELAY_MSG code and a
declared length equal to D's byte length; D's bytes themselves are the
transmitted trailing segment. -/
theorem C2_options_order_and_relay_msg (st : RelayState) (env : EventEnv)
    (D : List Nat) (fd : Int) (head payload : List Nat)
    (hD : env.datagram = some D)
    (h : (dhcpv6relay_client_event st env).2 = some (fd, head, payload)) :
    payload = D ∧ D.length < 1024 ∧
    ∃ p : Nat, head.drop 34 =
      expectedOptions p env.remote_id env.subscriber_id D.length := by
  obtain ⟨D2, fam, p, hD2, hlt, hsn, hfam, hhead, hpay, hfit⟩ :=
    clientEvent_sent st env fd head payload h
  rw [hD] at hD2
  obtain rfl : D = D2 := by injection hD2
  refine ⟨hpay, hlt, p, ?_⟩
  rw [hhead, ← length_relayHeader (recvByte D env.stale 0)
    (recvByte D env.stale 1) env.peerAddr, List.drop_left]

theorem C2_witness :
    ([1] : List Nat) = [1] ∧ ([1] : List Nat).length < 1024 ∧
    ∃ p : Nat, (relayHeader 1 0 (fun _ => 0) ++
        expectedOptions 1000 none none 1).drop 34 =
      expectedOptions p baseEnv.remote_id baseEnv.subscriber_id
        ([1] : List Nat).length :=
  C2_options_order_and_relay_msg goodState baseEnv [1] 3
    (relayHeader 1 0 (fun _ => 0) ++ expectedOptions 1000 none none 1) [1]
    rfl (by decide)

lemma take6_expectedOptions (port : Nat) (rid sid : Option (List Nat))
    (pl : Nat) :
    (expectedOptions port rid sid pl).take 6 =
      uint16be DHCPv6_OPTION_RELAY_PORT ++ uint16be 2 ++ uint16be port := by
  have h : expectedOptions port rid sid pl =
      (uint16be DHCPv6_OPTION_RELAY_PORT ++ uint16be 2 ++ uint16be port) ++
      (optTail DHCPv6_OPTION_REMOTE_ID rid ++
        optTail DHCPv6_OPTION_SUBSCRIBER_ID sid ++
        uint16be DHCPv6_OPTION_RELAY_MSG ++ uint16be pl) := by
    simp [expectedOptions, List.append_assoc]
  have h6 : (uint16be DHCPv6_OPTION_RELAY_PORT ++ uint16be 2 ++
      uint16be port).length = 6 := by simp
  rw [h, ← h6, List.take_left]

/-- C3 (amended): every forwarded RELAY-FORW carries, first in its options
region, a 6-byte RELAY_PORT TLV (2-byte code, 2-byte length equal to 2,
2-byte big-endian value) whose value is the local source port of the
relay's upstream socket as reported by getsockname — not the client's
source port. -/
theorem C3_relay_port_tlv (st : RelayState) (env : EventEnv) (D : List Nat)
    (fam : AddrFamily) (p : Nat) (fd : Int) (head payload : List Nat)
    (hD : env.datagram = some D) (hs : env.sockname = some (fam, p))
    (h : (dhcpv6relay_client_event st env).2 = some (fd, head, payload)) :
    (head.drop 34).take 6 =
      uint16be DHCPv6_OPTION_RELAY_PORT ++ uint16be 2 ++ uint16be p := by
  obtain ⟨D2, fam2, p2, hD2, hlt, hsn, hfam, hhead, hpay, hfit⟩ :=
    clientEvent_sent st env fd head payload h
  rw [hs] at hsn
  injection hsn with h1
  rw [Prod.mk.injEq] at h1
  obtain ⟨rfl, rfl⟩ := h1
  rw [hhead, ← length_relayHeader (recvByte D2 env.stale 0)
    (recvByte D2 env.stale 1) env.peerAddr, List.drop_left,
    take6_expectedOptions]

theorem C3_witness :
    ((relayHeader 1 0 (fun _ => 0) ++
        expectedOptions 1000 none none 1).drop 34).take 6 =
      uint16be DHCPv6_OPTION_RELAY_PORT ++ uint16be 2 ++ uint16be 1000 :=
  C3_relay_port_tlv goodState baseEnv [1] AddrFamily.af_inet6 1000 3
    (relayHeader 1 0 (fun _ => 0) ++ expectedOptions 1000 none none 1) [1]
    rfl rfl (by decide)

/-- C3 counterexample: in a run whose client source port is 546 while the
upstream socket's local port is 1000, the emitted RELAY_PORT value is the
big-endian encoding of 1000, not of the client's port 546 — refuting the
claim that the option carries the client's ephemeral source port. -/
theorem C3_counterexample :
    (dhcpv6relay_client_event goodState baseEnv).2 =
      some (3, relayHeader 1 0 (fun _ => 0) ++
        expectedOptions 1000 none none 1, [1]) ∧
    baseEnv.clientPort = 546 ∧
    ((relayHeader 1 0 (fun _ => 0) ++
        expectedOptions 1000 none none 1).drop 34).take 6 ≠
      uint16be DHCPv6_OPTION_RELAY_PORT ++ uint16be 2 ++
        uint16be baseEnv.clientPort :=
  ⟨by decide, rfl, by decide⟩

/-- An environment whose remote identifier is 250 bytes long, so that the
encoded options (34 + 6 + 254 + 4 = 298 bytes) overflow the scratch
buffer. -/
def envOversize : EventEnv :=
  { baseEnv with remote_id := some (List.replicate 250 65) }

/-- C4: option appends into the 256-byte scratch buffer are bounds-checked
before writing (the checks are the guards of `push_uint16`/`push_bytes`);
starting from the 34-byte header the build succeeds and emits exactly the
expected byte sequence precisely when the header plus the encoded options
(excluding the RELAY_MSG value) fit in 256 bytes, aborts otherwise, and on
overflow the handler transmits nothing at all. -/
theorem C4_bounded_option_building :
    (∀ (b0 b1 : Nat) (peer : Fin 16 → Nat) (port payloadLen : Nat)
      (rid sid : Option (List Nat)),
      buildOptions (relayHeader b0 b1 peer) port rid sid payloadLen =
        if 34 + optionsEncodedSize rid sid ≤ 256 then
          some (relayHeader b0 b1 peer ++
            expectedOptions port rid sid payloadLen)
        else none) ∧
    (∀ (st : RelayState) (env : EventEnv),
      256 < 34 + optionsEncodedSize env.remote_id env.subscriber_id →
      (dhcpv6relay_client_event st env).2 = none) := by
  constructor
  · intro b0 b1 peer port payloadLen rid sid
    rw [buildOptions_eq _ _ _ _ _ (by simp), length_relayHeader]
  · intro st env hbig
    rcases hres : (dhcpv6relay_client_event st env).2 with _ | ⟨fd, head, payload⟩
    · rfl
    · obtain ⟨D, fam, p, _, _, _, _, _, _, hfit⟩ :=
        clientEvent_sent st env fd head payload hres
      omega

set_option maxRecDepth 4000 in
theorem C4_witness :
    buildOptions (relayHeader 1 0 (fun _ => 0)) 1000 none none 1 =
      (if 34 + optionsEncodedSize none none ≤ 256 then
        some (relayHeader 1 0 (fun _ => 0) ++ expectedOptions 1000 none none 1)
      else none) ∧
    256 < 34 + optionsEncodedSize envOversize.remote_id
      envOversize.subscriber_id ∧
    (dhcpv6relay_client_event goodState envOversize).2 = none :=
  ⟨C4_bounded_option_building.1 1 0 (fun _ => 0) 1000 1 none none,
   by decide,
   C4_bounded_option_building.2 goodState envOversize (by decide)⟩

/-- An environment delivering a trusted RELAY_FORW with hop-count 3. -/
def envHop3 : EventEnv := { baseEnv with datagram := some [12, 3] }

/-- An environment delivering a trusted RELAY_FORW with hop-count 255. -/
def envHop255 : EventEnv := { baseEnv with datagram := some [12, 255] }

/-- C5 (amended): in the built outer header the hop-count byte is 0 when
the inbound message is not a RELAY_FORW, and is (N + 1) mod 256 when the
inbound message is a RELAY_FORW with hop-count byte N — the increment is
truncated to one byte, so hop-count 255 wraps to 0 rather than becoming
256. -/
theorem C5_hop_count (st : RelayState) (env : EventEnv) (D : List Nat)
    (fd : Int) (head payload : List Nat)
    (hD : env.datagram = some D) (hlen2 : 2 ≤ D.length)
    (h : (dhcpv6relay_client_event st env).2 = some (fd, head, payload)) :
    (D.getD 0 0 ≠ DHCPv6_MSGTYPE_RELAY_FORW → head.getD 1 0 = 0) ∧
    (D.getD 0 0 = DHCPv6_MSGTYPE_RELAY_FORW →
      head.getD 1 0 = (D.getD 1 0 + 1) % 256) := by
  obtain ⟨D2, fam, p, hD2, hlt, hsn, hfam, hhead, hpay, hfit⟩ :=
    clientEvent_sent st env fd head payload h
  rw [hD] at hD2
  obtain rfl : D = D2 := by injection hD2
  have h0 : recvByte D env.stale 0 = D.getD 0 0 := by
    unfold recvByte
    rw [if_pos (by omega)]
  have h1 : recvByte D env.stale 1 = D.getD 1 0 := by
    unfold recvByte
    rw [if_pos (by omega)]
  rw [h0, h1] at hhead
  constructor
  · intro hne
    rw [hhead]
    simp only [relayHeader, if_neg hne]
    rfl
  · intro heq
    rw [hhead]
    simp only [relayHeader, if_pos heq]
    rfl

theorem C5_witness :
    (([12, 3] : List Nat).getD 0 0 ≠ DHCPv6_MSGTYPE_RELAY_FORW →
      (relayHeader 12 3 (fun _ => 0) ++
        expectedOptions 1000 none none 2).getD 1 0 = 0) ∧
    (([12, 3] : List Nat).getD 0 0 = DHCPv6_MSGTYPE_RELAY_FORW →
      (relayHeader 12 3 (fun _ => 0) ++
        expectedOptions 1000 none none 2).getD 1 0 =
        (([12, 3] : List Nat).getD 1 0 + 1) % 256) :=
  C5_hop_count goodState envHop3 [12, 3] 3
    (relayHeader 12 3 (fun _ => 0) ++ expectedOptions 1000 none none 2)
    [12, 3] rfl (by decide) (by decide)

/-- C5 counterexample: an inbound RELAY_FORW with hop-count 255 on a
trusted link is forwarded with outer hop-count 0, not 255 + 1 = 256 —
refuting the unqualified claim that the outer hop-count is N + 1. -/
theorem C5_counterexample :
    Option.map (fun q => q.2.1.getD 1 0)
      (dhcpv6relay_client_event goodState envHop255).2 = some 0 ∧
    (0 : Nat) ≠ 255 + 1 :=
  ⟨by decide, by decide⟩

/-- C6 (amended, drop side): any inbound datagram of 1024 bytes or more —
`recvfrom` into the 1024-byte buffer returns 1024 for all of them — is
discarded with nothing sent upstream, for every state and trust setting,
before classification can matter. -/
theorem C6_size_limit (st : RelayState) (env : EventEnv) (D : List Nat)
    (hD : env.datagram = some D) (hbig : 1024 ≤ D.length) :
    (dhcpv6relay_client_event st env).2 = none := by
  unfold dhcpv6relay_client_event
  rw [hD]
  simp only []
  rw [if_pos (by omega)]

/-- An environment delivering a 1024-byte SOLICIT datagram. -/
def env1024 : EventEnv :=
  { baseEnv with datagram := some (1 :: List.replicate 1023 0) }

/-- An environment delivering a 1023-byte SOLICIT datagram. -/
def env1023 : EventEnv :=
  { baseEnv with datagram := some (1 :: List.replicate 1022 0) }

set_option maxRecDepth 10000 in
theorem C6_witness :
    1024 ≤ (1 :: List.replicate 1023 (0 : Nat)).length ∧
    (dhcpv6relay_client_event goodState env1024).2 = none :=
  ⟨by simp, C6_size_limit goodState env1024 (1 :: List.replicate 1023 0) rfl
    (by simp)⟩

set_option maxRecDepth 10000 in
/-- C6 counterexample: a 1024-byte datagram in an otherwise fully working
run is dropped (nothing sent), while the same run with a 1023-byte
datagram forwards — refuting the claim that datagrams up to 1024 bytes
are processed: the code's `r >= sizeof(buffer)` check rejects exactly
1024 as well. -/
theorem C6_counterexample :
    (dhcpv6relay_client_event goodState env1024).2 = none ∧
    ((dhcpv6relay_client_event goodState env1023).2).isSome = true := by
  constructor
  · exact C6_size_limit goodState env1024 (1 :: List.replicate 1023 0) rfl
      (by simp)
  · rfl

/-- A zero-length datagram with stale stack byte 7 (REPLY) at index 0. -/
def envEmptyStale7 : EventEnv :=
  { baseEnv with datagram := some [], stale := fun _ => 7 }

/-- A zero-length datagram with stale stack byte 1 (SOLICIT) at index 0. -/
def envEmptyStale1 : EventEnv :=
  { baseEnv with datagram := some [], stale := fun _ => 1 }

/-- C7: refuted by the code — after accepting a zero-length datagram the
classification still reads `buffer[0]`, a byte `recvfrom` never wrote: two
runs identical except for the stale stack contents behave differently (the
stale byte 7 is classified as REPLY and dropped, the stale byte 1 as
SOLICIT and forwarded), so the index-0 read is not confined to received
bytes. -/
theorem C7_reads_stale_byte_on_empty_datagram :
    (dhcpv6relay_client_event goodState envEmptyStale7).2 = none ∧
    (dhcpv6relay_client_event goodState envEmptyStale1).2 ≠ none :=
  ⟨by decide, by decide⟩

/-- With an upstream socket already present the handler never touches the
module state. -/
lemma clientEvent_fst_of_nonneg (st : RelayState) (env : EventEnv)
    (hup : 0 ≤ st.upstream) :
    (dhcpv6relay_client_event st env).1 = st := by
  unfold dhcpv6relay_client_event
  rw [if_neg (by omega : ¬ st.upstream < 0)]
  rcases hD : env.datagram with _ | D
  · rfl
  · simp only []
    split_ifs with h1024
    · rfl
    · rcases hcl : classify (recvByte D env.stale 0) st.trusted with _ | _
      · simp only []
        rcases hsn : env.sockname with _ | ⟨fam, p⟩
        · rfl
        · simp only []
          split_ifs with hfam
          · rfl
          · rcases hb : buildOptions (relayHeader (recvByte D env.stale 0)
                (recvByte D env.stale 1) env.peerAddr) p env.remote_id
                env.subscriber_id (min D.length 1024) with _ | hd <;>
              simp only []
      · rfl

/-- A failing lazy connect resets the upstream descriptor to -1 and leaves
everything else unchanged. -/
lemma init_upstream_fail (st : RelayState) (envU : UpstreamEnv)
    (hfail : envU.socketResult = none ∨ envU.connectOk = false) :
    dhcpv6relay_init_upstream st envU = ({ st with upstream := -1 }, false) := by
  unfold dhcpv6relay_init_upstream
  rcases hs : envU.socketResult with _ | fd
  · rfl
  · rcases hfail with hf | hf
    · rw [hs] at hf
      exact absurd hf (by simp)
    · simp [hf]

/-- A successful lazy connect stores the new descriptor and reports
success. -/
lemma init_upstream_success (st : RelayState) (envU : UpstreamEnv) (fd : Nat)
    (hsock : envU.socketResult = some fd) (hconn : envU.connectOk = true) :
    dhcpv6relay_init_upstream st envU =
      ({ st with upstream := (fd : Int) }, true) := by
  unfold dhcpv6relay_init_upstream
  rw [hsock]
  simp [hconn]

/-- When classification forwards but the lazy connect fails, the whole
relay attempt for this packet is aborted: nothing is sent and the only
state change is the upstream descriptor reset to -1. -/
lemma clientEvent_init_fail (st : RelayState) (env : EventEnv) (D : List Nat)
    (hD : env.datagram = some D) (hlen : D.length < 1024)
    (hfwd : classify (recvByte D env.stale 0) st.trusted =
      ClassifyResult.forward)
    (hup : st.upstream < 0)
    (hfail : env.upstreamEnv.socketResult = none ∨
      env.upstreamEnv.connectOk = false) :
    dhcpv6relay_client_event st env = ({ st with upstream := -1 }, none) := by
  unfold dhcpv6relay_client_event
  rw [hD]
  simp only []
  rw [if_neg (by omega), hfwd]
  simp only []
  rw [if_pos hup, init_upstream_fail st env.upstreamEnv hfail]

/-- When classification forwards and the lazy connect succeeds, the new
descriptor is stored in the state (and used for the send). -/
lemma clientEvent_init_success (st : RelayState) (env : EventEnv)
    (D : List Nat) (fd : Nat)
    (hD : env.datagram = some D) (hlen : D.length < 1024)
    (hfwd : classify (recvByte D env.stale 0) st.trusted =
      ClassifyResult.forward)
    (hup : st.upstream < 0)
    (hsock : env.upstreamEnv.socketResult = some fd)
    (hconn : env.upstreamEnv.connectOk = true) :
    (dhcpv6relay_client_event st env).1 =
      { st with upstream := (fd : Int) } := by
  unfold dhcpv6relay_client_event
  rw [hD]
  simp only []
  rw [if_neg (by omega), hfwd]
  simp only []
  rw [if_pos hup, init_upstream_success st env.upstreamEnv fd hsock hconn]
  simp only []
  rcases hsn : env.sockname with _ | ⟨fam, p⟩
  · rfl
  · simp only []
    split_ifs with hfam
    · rfl
    · rcases hb : buildOptions (relayHeader (recvByte D env.stale 0)
          (recvByte D env.stale 1) env.peerAddr) p env.remote_id
          env.subscriber_id (min D.length 1024) with _ | hd <;>
        simp only []

/-- C8: the upstream socket is created lazily on the first forwarded
packet and reused afterwards — with a connected upstream the handler
leaves the state untouched; with none, a successful create-and-connect
stores the new descriptor; and a failed create or connect aborts the
current packet (nothing sent), resets the upstream descriptor to the
absent sentinel -1 (so the next inbound packet retries), and leaves both
listening sockets and the trust flag untouched. -/
theorem C8_lazy_upstream (st : RelayState) (env : EventEnv) (D : List Nat)
    (hD : env.datagram = some D) (hlen : D.length < 1024)
    (hfwd : classify (recvByte D env.stale 0) st.trusted =
      ClassifyResult.forward) :
    (0 ≤ st.upstream → (dhcpv6relay_client_event st env).1 = st) ∧
    (st.upstream < 0 → ∀ fd : Nat,
      env.upstreamEnv.socketResult = some fd →
      env.upstreamEnv.connectOk = true →
      (dhcpv6relay_client_event st env).1 =
        { st with upstream := (fd : Int) }) ∧
    (st.upstream < 0 →
      (env.upstreamEnv.socketResult = none ∨
        env.upstreamEnv.connectOk = false) →
      (dhcpv6relay_client_event st env).2 = none ∧
      (dhcpv6relay_client_event st env).1 = { st with upstream := -1 }) := by
  refine ⟨fun hup => clientEvent_fst_of_nonneg st env hup,
    fun hup fd hsock hconn =>
      clientEvent_init_success st env D fd hD hlen hfwd hup hsock hconn,
    fun hup hfail => ?_⟩
  rw [clientEvent_init_fail st env D hD hlen hfwd hup hfail]
  exact ⟨rfl, rfl⟩

/-- A state with the link up but no upstream socket yet. -/
def noUpstreamState : RelayState :=
  { trusted := true, sock_ll := 5, sock_mc := 6, upstream := -1 }

/-- An environment whose upstream connect fails. -/
def envConnFail : EventEnv :=
  { baseEnv with upstreamEnv := { socketResult := some 3, connectOk := false } }

theorem C8_witness :
    (dhcpv6relay_client_event noUpstreamState envConnFail).2 = none ∧
    (dhcpv6relay_client_event noUpstreamState envConnFail).1 =
      { noUpstreamState with upstream := -1 } :=
  (C8_lazy_upstream noUpstreamState envConnFail [1] rfl (by decide)
    (by decide)).2.2 (by decide) (Or.inr rfl)

/-- C9: tearing a link down when both listening descriptors are already
absent is a no-op — the state is unchanged and no descriptor is closed or
unregistered — and a second teardown after any teardown is always such a
no-op, so tearing down twice equals tearing down once. -/
theorem C9_down_idempotent (st : RelayState) :
    (st.sock_ll = -1 → st.sock_mc = -1 → dhcpv6relay_down st = (st, [])) ∧
    dhcpv6relay_down (dhcpv6relay_down st).1 = ((dhcpv6relay_down st).1, []) := by
  obtain ⟨t, ll, mc, up⟩ := st
  constructor
  · intro hll hmc
    simp only at hll hmc
    subst hll
    subst hmc
    simp [dhcpv6relay_down]
  · simp only [dhcpv6relay_down]
    split_ifs <;> simp_all

/-- A state with both listening sockets already absent. -/
def downState : RelayState :=
  { trusted := true, sock_ll := -1, sock_mc := -1, upstream := 3 }

theorem C9_witness :
    downState.sock_ll = -1 ∧ downState.sock_mc = -1 ∧
    dhcpv6relay_down downState = (downState, []) :=
  ⟨rfl, rfl, (C9_down_idempotent downState).1 rfl rfl⟩

/-- An Up-transition environment in which every step succeeds, creating
listening sockets 7 and 8. -/
def envUpGood : UpEnv :=
  { serverConfigured := true, llOk := true, serventOk := true,
    sockLLResult := some 7, bindLLOk := true, ptonOk := true, joinOk := true,
    sockMCResult := some 8, bindMCOk := true }

lemma down_upstream (st : RelayState) :
    (dhcpv6relay_down st).1.upstream = st.upstream ∧
    (dhcpv6relay_down st).1.trusted = st.trusted := by
  simp only [dhcpv6relay_down]
  split_ifs <;> simp

lemma up_upstream (st : RelayState) (envU : UpEnv) :
    (dhcpv6relay_up st envU).upstream = st.upstream := by
  unfold dhcpv6relay_up
  by_cases h1 : envU.serverConfigured = false
  · rw [if_pos h1]
  · rw [if_neg h1]
    by_cases h2 : envU.llOk = false
    · rw [if_pos h2]
    · rw [if_neg h2]
      by_cases h3 : envU.serventOk = false
      · rw [if_pos h3]
      · rw [if_neg h3]
        rcases hll : envU.sockLLResult with _ | fdll <;> simp only []
        · exact (down_upstream _).1
        · by_cases h4 : envU.bindLLOk = false
          · rw [if_pos h4]
            exact (down_upstream _).1
          · rw [if_neg h4]
            by_cases h5 : envU.ptonOk = false
            · rw [if_pos h5]
              exact (down_upstream _).1
            · rw [if_neg h5]
              by_cases h6 : envU.joinOk = false
              · rw [if_pos h6]
                exact (down_upstream _).1
              · rw [if_neg h6]
                rcases hmc : envU.sockMCResult with _ | fdmc <;> simp only []
                · exact (down_upstream _).1
                · by_cases h7 : envU.bindMCOk = false
                  · rw [if_pos h7]
                    exact (down_upstream _).1
                  · rw [if_neg h7]

/-- With an upstream socket already present, any packet the handler sends
goes out on exactly that descriptor. -/
lemma clientEvent_sent_fd (st : RelayState) (env : EventEnv) (fd : Int)
    (head payload : List Nat) (hup : 0 ≤ st.upstream)
    (h : (dhcpv6relay_client_event st env).2 = some (fd, head, payload)) :
    fd = st.upstream := by
  unfold dhcpv6relay_client_event at h
  rw [if_neg (by omega : ¬ st.upstream < 0)] at h
  rcases hD : env.datagram with _ | D <;> rw [hD] at h
  · exact absurd h (by simp)
  · simp only [] at h
    by_cases h1024 : 1024 ≤ min D.length 1024
    · rw [if_pos h1024] at h
      exact absurd h (by simp)
    · rw [if_neg h1024] at h
      rcases hcl : classify (recvByte D env.stale 0) st.trusted with _ | _ <;>
        rw [hcl] at h
      · simp only [] at h
        rcases hsn : env.sockname with _ | ⟨fam, p⟩ <;> rw [hsn] at h
        · exact absurd h (by simp)
        · simp only [] at h
          by_cases hfam : fam = AddrFamily.af_other
          · rw [if_pos hfam] at h
            exact absurd h (by simp)
          · rw [if_neg hfam] at h
            rcases hb : buildOptions (relayHeader (recvByte D env.stale 0)
                (recvByte D env.stale 1) env.peerAddr) p env.remote_id
                env.subscriber_id (min D.length 1024) with _ | hd <;>
              rw [hb] at h <;> simp only [] at h
            · exact absurd h (by simp)
            · simp only [Prod.mk.injEq, Option.some.injEq] at h
              exact h.1.symm
      · exact absurd h (by simp)

/-- C10: link-down closes and unregisters only the two listening sockets —
every descriptor action it performs targets `sock_ll` or `sock_mc`, and the
upstream descriptor (and trust flag) are untouched; after a subsequent
link-up the upstream descriptor is still the same, and a packet forwarded
then is sent on that same descriptor with the state unchanged. -/
theorem C10_down_preserves_upstream (st : RelayState) :
    (dhcpv6relay_down st).1.upstream = st.upstream ∧
    (∀ a ∈ (dhcpv6relay_down st).2,
      a = FdAction.removeFd st.sock_ll ∨ a = FdAction.closeFd st.sock_ll ∨
      a = FdAction.removeFd st.sock_mc ∨ a = FdAction.closeFd st.sock_mc) ∧
    (∀ envU : UpEnv,
      (dhcpv6relay_up (dhcpv6relay_down st).1 envU).upstream = st.upstream) ∧
    (∀ (envU : UpEnv) (env : EventEnv) (fd : Int) (head payload : List Nat),
      0 ≤ st.upstream →
      (dhcpv6relay_client_event
        (dhcpv6relay_up (dhcpv6relay_down st).1 envU) env).2 =
          some (fd, head, payload) →
      fd = st.upstream ∧
      (dhcpv6relay_client_event
        (dhcpv6relay_up (dhcpv6relay_down st).1 envU) env).1.upstream =
        st.upstream) := by
  refine ⟨(down_upstream st).1, ?_, ?_, ?_⟩
  · intro a ha
    simp only [dhcpv6relay_down] at ha
    split_ifs at ha <;> simp_all <;> tauto
  · intro envU
    rw [up_upstream, (down_upstream st).1]
  · intro envU env fd head payload hup hsent
    have hpre : (dhcpv6relay_up (dhcpv6relay_down st).1 envU).upstream =
        st.upstream := by
      rw [up_upstream, (down_upstream st).1]
    have hfst := clientEvent_fst_of_nonneg
      (dhcpv6relay_up (dhcpv6relay_down st).1 envU) env (by omega)
    constructor
    · have hfd := clientEvent_sent_fd
        (dhcpv6relay_up (dhcpv6relay_down st).1 envU) env fd head payload
        (by omega) hsent
      rw [hfd, hpre]
    · rw [hfst, hpre]

theorem C10_witness :
    (FdAction.removeFd (5 : Int) = FdAction.removeFd goodState.sock_ll ∨
      FdAction.removeFd (5 : Int) = FdAction.closeFd goodState.sock_ll ∨
      FdAction.removeFd (5 : Int) = FdAction.removeFd goodState.sock_mc ∨
      FdAction.removeFd (5 : Int) = FdAction.closeFd goodState.sock_mc) ∧
    (dhcpv6relay_up (dhcpv6relay_down goodState).1 envUpGood).upstream =
      goodState.upstream ∧
    (3 : Int) = goodState.upstream :=
  ⟨(C10_down_preserves_upstream goodState).2.1 (FdAction.removeFd 5)
      (by decide),
   (C10_down_preserves_upstream goodState).2.2.1 envUpGood,
   ((C10_down_preserves_upstream goodState).2.2.2 envUpGood baseEnv 3
      (relayHeader 1 0 (fun _ => 0) ++ expectedOptions 1000 none none 1) [1]
      (by decide) (by decide)).1⟩

end DHCPv6Relay
